import Mathlib

/-!
Shallow embedding of the metatools-vault program
(src/contracts/metatools-vault): state records, the fee engine and the six
instruction processors, with machine-integer arithmetic made explicit
(`u64`/`u32` wrap as `% 2^64` / `% 2^32`, `saturating_sub` as Nat
subtraction, `saturating_add` as `min` with the maximum).  Pubkeys are
modelled as `Nat`, with `0` playing the role of `Pubkey::default()`.
-/

namespace MetatoolsVault

/-- 2^64, the modulus of `u64` arithmetic. -/
def U64_MOD : Nat := 18446744073709551616

/-- 2^32, the modulus of `u32` arithmetic. -/
def U32_MOD : Nat := 4294967296

/-- Wrapping `u64` addition (Rust `+=` in a release build). -/
def wadd64 (a b : Nat) : Nat := (a + b) % U64_MOD

/-- Wrapping `u32` addition (Rust `+=` in a release build). -/
def wadd32 (a b : Nat) : Nat := (a + b) % U32_MOD

/-- Wrapping `u64` subtraction, for operands below `2^64`. -/
def wsub64 (a b : Nat) : Nat := (a + U64_MOD - b) % U64_MOD

/-- `u64::saturating_add`. -/
def satAdd64 (a b : Nat) : Nat := min (a + b) (U64_MOD - 1)

/-- `u64`/`u32` `saturating_sub` is exactly truncated Nat subtraction. -/
def satSub (a b : Nat) : Nat := a - b

/-- GlobalConfig account (api/src/state/global_config.rs). -/
structure GlobalConfig where
  admin : Nat
  treasury : Nat
  buyback_wallet : Nat
  fee_bps : Nat               -- u16
  referral_percentage : Nat   -- u8
  buyback_percentage : Nat    -- u8
  treasury_percentage : Nat   -- u8
  paused : Nat                -- u8 (0 = false)
  deriving DecidableEq, Repr

/-- VaultMetadata account (api/src/state/vault_metadata.rs). -/
structure VaultMetadata where
  session_wallet : Nat
  main_wallet : Nat
  referrer : Nat
  total_value_locked : Nat    -- u64
  total_deposits : Nat        -- u64
  total_withdrawals : Nat     -- u64
  total_fees_paid : Nat       -- u64
  next_position_id : Nat      -- u64
  created_at : Int
  last_activity : Int
  active_positions : Nat      -- u32
  status : Nat                -- u8
  deriving DecidableEq, Repr

/-- Vault status constants. -/
def VaultMetadata.STATUS_ACTIVE : Nat := 0

def VaultMetadata.STATUS_PAUSED : Nat := 1

def VaultMetadata.STATUS_CLOSED : Nat := 2

/-- Position account (api/src/state/position.rs). -/
structure Position where
  session_wallet : Nat
  pool : Nat
  base_mint : Nat
  quote_mint : Nat
  position_id : Nat           -- u64
  initial_tvl : Nat           -- u64
  current_tvl : Nat           -- u64
  fee_paid : Nat              -- u64
  fees_claimed : Nat          -- u64
  total_compounded : Nat      -- u64
  opened_at : Int
  last_rebalance : Int
  protocol : Nat              -- u8
  strategy : Nat              -- u8
  status : Nat                -- u8
  deriving DecidableEq, Repr

/-- Position status constants. -/
def Position.STATUS_OPEN : Nat := 0

def Position.STATUS_CLOSED : Nat := 1

/-- Errors surfaced by the processors (api/src/error.rs plus the generic
runtime errors produced by account loading / creation). -/
inductive Err where
  | notEnoughAccountKeys
  | accountNotFound
  | accountAlreadyInUse
  | accountDataInvalid
  | invalidPDA
  | programPaused
  | unauthorized
  | invalidAuthority
  | invalidFeePercentages
  | arithmeticOverflow
  | invalidPositionStatus
  deriving DecidableEq, Repr

/-- The persisted store: the config singleton, vault records keyed by
session wallet, position records keyed by (session wallet, position id).
PDA derivation is modelled by this keying: the caller-supplied account for a
logical key is the record stored at that key. -/
structure Chain where
  config : Option GlobalConfig
  vaults : Nat → Option VaultMetadata
  positions : Nat → Nat → Option Position

/-- Fee computation from open_position.rs line 41:
`(initial_tvl as u128 * fee_bps as u128 / 10_000) as u64`.
The u128 product never overflows; the final cast truncates mod 2^64. -/
def compute_fee (initial_tvl fee_bps : Nat) : Nat :=
  initial_tvl * fee_bps / 10000 % U64_MOD

/-- Fee split from open_position.rs lines 44-50: referral share (zero with
no referrer), buyback share, treasury gets the remainder by wrapping `u64`
subtraction. -/
def split (fee_amount referral_pct buyback_pct : Nat) (has_referrer : Bool) :
    Nat × Nat × Nat :=
  let referral_fee :=
    if has_referrer then fee_amount * referral_pct / 100 % U64_MOD else 0
  let buyback_fee := fee_amount * buyback_pct / 100 % U64_MOD
  let treasury_fee := wsub64 (wsub64 fee_amount referral_fee) buyback_fee
  (referral_fee, buyback_fee, treasury_fee)

/-- Arguments of the InitializeConfig instruction. -/
structure InitializeConfigArgs where
  treasury : Nat
  buyback_wallet : Nat
  fee_bps : Nat        -- u16
  referral_pct : Nat   -- u8
  buyback_pct : Nat    -- u8
  treasury_pct : Nat   -- u8
  deriving DecidableEq, Repr

/-- Arguments of the UpdateConfig instruction. -/
structure UpdateConfigArgs where
  new_treasury : Nat
  new_buyback_wallet : Nat
  new_fee_bps : Nat        -- u16
  new_referral_pct : Nat   -- u8
  new_buyback_pct : Nat    -- u8
  new_treasury_pct : Nat   -- u8
  paused : Nat             -- u8
  deriving DecidableEq, Repr

/-- Arguments of the OpenPosition instruction. -/
structure OpenPositionArgs where
  pool : Nat
  base_mint : Nat
  quote_mint : Nat
  initial_tvl : Nat   -- u64
  protocol : Nat      -- u8
  strategy : Nat      -- u8
  deriving DecidableEq, Repr

/-- Arguments of the UpdatePositionTVL instruction. -/
structure UpdatePositionTVLArgs where
  position_id : Nat        -- u64
  new_tvl : Nat            -- u64
  fees_claimed : Nat       -- u64
  total_compounded : Nat   -- u64
  deriving DecidableEq, Repr

/-- initialize_config.rs: check the three percentages sum to 100 (as u16,
which cannot overflow for u8 inputs), create the singleton config account
(fails if it already exists), and write its fields; `paused` starts false
and `admin` is the initializing signer. -/
def process_initialize_config (chain : Chain) (admin : Nat)
    (args : InitializeConfigArgs) : Except Err Chain :=
  let total_pct := args.referral_pct + args.buyback_pct + args.treasury_pct
  if total_pct ≠ 100 then .error .invalidFeePercentages
  else if (chain.config).isSome then .error .accountAlreadyInUse
  else .ok { chain with
    config := some
      { admin := admin
        treasury := args.treasury
        buyback_wallet := args.buyback_wallet
        fee_bps := args.fee_bps
        referral_percentage := args.referral_pct
        buyback_percentage := args.buyback_pct
        treasury_percentage := args.treasury_pct
        paused := 0 } }

/-- update_config.rs: check the three percentages sum to 100, load the
existing config, require the caller to be the recorded admin, then
overwrite every field except `admin`. -/
def process_update_config (chain : Chain) (caller : Nat)
    (args : UpdateConfigArgs) : Except Err Chain :=
  let total_pct := args.new_referral_pct + args.new_buyback_pct + args.new_treasury_pct
  if total_pct ≠ 100 then .error .invalidFeePercentages
  else match chain.config with
  | none => .error .accountNotFound
  | some config =>
  if config.admin ≠ caller then .error .invalidAuthority
  else .ok { chain with
    config := some
      { config with
        treasury := args.new_treasury
        buyback_wallet := args.new_buyback_wallet
        fee_bps := args.new_fee_bps
        referral_percentage := args.new_referral_pct
        buyback_percentage := args.new_buyback_pct
        treasury_percentage := args.new_treasury_pct
        paused := args.paused } }

/-- create_vault.rs: create the vault account for the session wallet
(fails if it already exists) and initialize every aggregate to zero,
`status = Active`, timestamps to now. -/
def process_create_vault (chain : Chain) (session_wallet main_wallet : Nat)
    (referrer : Nat) (now : Int) : Except Err Chain :=
  if (chain.vaults session_wallet).isSome then .error .accountAlreadyInUse
  else .ok { chain with
    vaults := fun w =>
      if w = session_wallet then
        some
          { session_wallet := session_wallet
            main_wallet := main_wallet
            referrer := referrer
            total_value_locked := 0
            total_deposits := 0
            total_withdrawals := 0
            total_fees_paid := 0
            active_positions := 0
            next_position_id := 0
            created_at := now
            last_activity := now
            status := VaultMetadata.STATUS_ACTIVE }
      else chain.vaults w }

/-- open_position.rs: load the config and refuse when paused; load the
caller's vault and require `session_wallet` match and `status = Active`;
compute the fee and its split; request the three transfers (the referral
one only when positive), each from the session wallet to the
caller-supplied destination accounts; create the position record at
`(session_wallet, vault.next_position_id)` (fails if it exists); update
the vault aggregates with plain (wrapping) `+=`.  Returns the new chain
and the requested transfers `(from, to, lamports)`. -/
def process_open_position (chain : Chain) (session_wallet : Nat)
    (args : OpenPositionArgs) (treasury_acc buyback_acc referrer_acc : Nat)
    (now : Int) : Except Err (Chain × List (Nat × Nat × Nat)) :=
  match chain.config with
  | none => .error .accountNotFound
  | some config =>
  if config.paused ≠ 0 then .error .programPaused
  else match chain.vaults session_wallet with
  | none => .error .accountNotFound
  | some vault =>
  if vault.session_wallet ≠ session_wallet then .error .accountDataInvalid
  else if vault.status ≠ VaultMetadata.STATUS_ACTIVE then .error .accountDataInvalid
  else
  let fee_amount := compute_fee args.initial_tvl config.fee_bps
  let fees :=
    split fee_amount config.referral_percentage config.buyback_percentage
      (vault.referrer ≠ 0)
  let referral_fee := fees.1
  let buyback_fee := fees.2.1
  let treasury_fee := fees.2.2
  let transfers :=
    (if referral_fee > 0 then [(session_wallet, referrer_acc, referral_fee)] else [])
      ++ [(session_wallet, buyback_acc, buyback_fee),
          (session_wallet, treasury_acc, treasury_fee)]
  let position_id := vault.next_position_id
  if (chain.positions session_wallet position_id).isSome then
    .error .accountAlreadyInUse
  else
  let position : Position :=
    { session_wallet := session_wallet
      position_id := position_id
      protocol := args.protocol
      pool := args.pool
      base_mint := args.base_mint
      quote_mint := args.quote_mint
      strategy := args.strategy
      initial_tvl := args.initial_tvl
      current_tvl := args.initial_tvl
      fee_paid := fee_amount
      fees_claimed := 0
      total_compounded := 0
      opened_at := now
      last_rebalance := now
      status := Position.STATUS_OPEN }
  let vault' :=
    { vault with
      active_positions := wadd32 vault.active_positions 1
      next_position_id := wadd64 vault.next_position_id 1
      total_fees_paid := wadd64 vault.total_fees_paid fee_amount
      total_value_locked := wadd64 vault.total_value_locked args.initial_tvl
      last_activity := now }
  .ok
    ({ chain with
        vaults := fun w =>
          if w = session_wallet then some vault' else chain.vaults w
        positions := fun w i =>
          if w = session_wallet ∧ i = position_id then some position
          else chain.positions w i },
      transfers)

/-- close_position.rs: load the position at `(session_wallet,
position_id)`, require ownership and `status = Open`; load the vault and
require its `session_wallet` match; decrement `active_positions` and
`total_value_locked` with `saturating_sub`, add the position's
`current_tvl` to `total_withdrawals` with `saturating_add`, refresh
`last_activity`; mark the position Closed. -/
def process_close_position (chain : Chain) (session_wallet : Nat)
    (position_id : Nat) (now : Int) : Except Err Chain :=
  match chain.positions session_wallet position_id with
  | none => .error .accountNotFound
  | some position =>
  if position.session_wallet ≠ session_wallet then .error .unauthorized
  else if position.status ≠ Position.STATUS_OPEN then .error .invalidPositionStatus
  else match chain.vaults session_wallet with
  | none => .error .accountNotFound
  | some vault =>
  if vault.session_wallet ≠ session_wallet then .error .accountDataInvalid
  else
  let vault' :=
    { vault with
      active_positions := satSub vault.active_positions 1
      total_value_locked := satSub vault.total_value_locked position.current_tvl
      total_withdrawals := satAdd64 vault.total_withdrawals position.current_tvl
      last_activity := now }
  let position' := { position with status := Position.STATUS_CLOSED }
  .ok { chain with
    vaults := fun w =>
      if w = session_wallet then some vault' else chain.vaults w
    positions := fun w i =>
      if w = session_wallet ∧ i = position_id then some position'
      else chain.positions w i }

/-- update_position_tvl.rs: load the position at `(session_wallet,
position_id)`, require ownership and `status = Open`, then overwrite
`current_tvl`, `fees_claimed`, `total_compounded` and refresh the
position's `last_rebalance`.  The vault record is not among the accounts
this instruction touches. -/
def process_update_position_tvl (chain : Chain) (session_wallet : Nat)
    (args : UpdatePositionTVLArgs) (now : Int) : Except Err Chain :=
  match chain.positions session_wallet args.position_id with
  | none => .error .accountNotFound
  | some position =>
  if position.session_wallet ≠ session_wallet then .error .unauthorized
  else if position.status ≠ Position.STATUS_OPEN then .error .invalidPositionStatus
  else
  let position' :=
    { position with
      current_tvl := args.new_tvl
      fees_claimed := args.fees_claimed
      total_compounded := args.total_compounded
      last_rebalance := now }
  .ok { chain with
    positions := fun w i =>
      if w = session_wallet ∧ i = args.position_id then some position'
      else chain.positions w i }

/-! ### Concrete stores and fixtures used by witnesses and
counterexamples, and the vault-count invariant -/

/-- The empty store. -/
def emptyChain : Chain :=
  { config := none, vaults := fun _ => none, positions := fun _ _ => none }

/-- The spec's default config (fee_bps 70, split 10/45/45), admin 7. -/
def cfgDefault : GlobalConfig :=
  { admin := 7, treasury := 2, buyback_wallet := 3, fee_bps := 70
    referral_percentage := 10, buyback_percentage := 45
    treasury_percentage := 45, paused := 0 }

/-- InitializeConfig args whose percentages do not sum to 100. -/
def badPctArgs : InitializeConfigArgs :=
  { treasury := 2, buyback_wallet := 3, fee_bps := 70
    referral_pct := 10, buyback_pct := 45, treasury_pct := 46 }

/-- InitializeConfig args with valid percentages but `fee_bps = 20000`. -/
def hugeFeeArgs : InitializeConfigArgs :=
  { treasury := 2, buyback_wallet := 3, fee_bps := 20000
    referral_pct := 10, buyback_pct := 45, treasury_pct := 45 }

/-- UpdateConfig args with valid percentages. -/
def updArgs : UpdateConfigArgs :=
  { new_treasury := 12, new_buyback_wallet := 13, new_fee_bps := 80
    new_referral_pct := 20, new_buyback_pct := 30, new_treasury_pct := 50
    paused := 1 }

/-- InitializeConfig args matching the spec's defaults. -/
def goodPctArgs : InitializeConfigArgs :=
  { treasury := 2, buyback_wallet := 3, fee_bps := 70
    referral_pct := 10, buyback_pct := 45, treasury_pct := 45 }

/-- The store holding only the default config. -/
def chainDefault : Chain :=
  { config := some cfgDefault, vaults := fun _ => none
    positions := fun _ _ => none }

/-- The config produced by applying `updArgs` to `cfgDefault`. -/
def cfgUpdated : GlobalConfig :=
  { admin := 7, treasury := 12, buyback_wallet := 13, fee_bps := 80
    referral_percentage := 20, buyback_percentage := 30
    treasury_percentage := 50, paused := 1 }

/-- The store holding only `cfgUpdated`. -/
def chainUpdated : Chain :=
  { config := some cfgUpdated, vaults := fun _ => none
    positions := fun _ _ => none }

/-- The config written by `hugeFeeArgs`: `fee_bps = 20000`. -/
def cfgHugeFee : GlobalConfig :=
  { admin := 7, treasury := 2, buyback_wallet := 3, fee_bps := 20000
    referral_percentage := 10, buyback_percentage := 45
    treasury_percentage := 45, paused := 0 }

/-- The store holding only `cfgHugeFee`. -/
def chainHugeFee : Chain :=
  { config := some cfgHugeFee, vaults := fun _ => none
    positions := fun _ _ => none }

/-- Witness vault for C3: a freshly created vault with a referrer. -/
def vaultFresh : VaultMetadata :=
  { session_wallet := 1, main_wallet := 5, referrer := 9
    total_value_locked := 0, total_deposits := 0, total_withdrawals := 0
    total_fees_paid := 0, next_position_id := 0, created_at := 0
    last_activity := 0, active_positions := 0
    status := VaultMetadata.STATUS_ACTIVE }

/-- Store with the default config and the fresh vault of wallet 1. -/
def chainReady : Chain :=
  { config := some cfgDefault
    vaults := fun w => if w = 1 then some vaultFresh else none
    positions := fun _ _ => none }

/-- OpenPosition args with `initial_tvl = 1000000`. -/
def openArgs : OpenPositionArgs :=
  { pool := 21, base_mint := 22, quote_mint := 23
    initial_tvl := 1000000, protocol := 0, strategy := 0 }

/-- A concrete open position owned by wallet 1. -/
def posOpen : Position :=
  { session_wallet := 1, pool := 21, base_mint := 22, quote_mint := 23
    position_id := 0, initial_tvl := 1000000, current_tvl := 1000000
    fee_paid := 7000, fees_claimed := 0, total_compounded := 0
    opened_at := 0, last_rebalance := 0, protocol := 0, strategy := 0
    status := Position.STATUS_OPEN }

/-- The vault of wallet 1 after opening `posOpen`. -/
def vaultWithPos : VaultMetadata :=
  { session_wallet := 1, main_wallet := 5, referrer := 9
    total_value_locked := 1000000, total_deposits := 0
    total_withdrawals := 0, total_fees_paid := 7000
    next_position_id := 1, created_at := 0, last_activity := 0
    active_positions := 1, status := VaultMetadata.STATUS_ACTIVE }

/-- Store with the default config, `vaultWithPos` and `posOpen`. -/
def chainWithPos : Chain :=
  { config := some cfgDefault
    vaults := fun w => if w = 1 then some vaultWithPos else none
    positions := fun w i => if w = 1 ∧ i = 0 then some posOpen else none }

/-- UpdatePositionTVL args aimed at position 0. -/
def updTvlArgs : UpdatePositionTVLArgs :=
  { position_id := 0, new_tvl := 500, fees_claimed := 1
    total_compounded := 2 }

/-- Vault whose `total_value_locked` sits at `u64::MAX`. -/
def vaultMaxTvl : VaultMetadata :=
  { session_wallet := 1, main_wallet := 5, referrer := 0
    total_value_locked := 18446744073709551615, total_deposits := 0
    total_withdrawals := 0, total_fees_paid := 0, next_position_id := 0
    created_at := 0, last_activity := 0, active_positions := 0
    status := VaultMetadata.STATUS_ACTIVE }

/-- Store with the default config and `vaultMaxTvl`. -/
def chainMaxTvl : Chain :=
  { config := some cfgDefault
    vaults := fun w => if w = 1 then some vaultMaxTvl else none
    positions := fun _ _ => none }

/-- Whether an optional position record is present and Open. -/
def isOpenOpt (o : Option Position) : Bool :=
  match o with
  | some p => p.status == Position.STATUS_OPEN
  | none => false

/-- Number of Open positions owned by wallet `w` among ids below `n`. -/
def openCount (chain : Chain) (w n : Nat) : Nat :=
  ((Finset.range n).filter (fun i => isOpenOpt (chain.positions w i) = true)).card

/-- The spec's vault invariant: every vault's `active_positions` equals
the number of its position records in status Open (all of which sit below
`next_position_id`). -/
def vaultInvariant (chain : Chain) : Prop :=
  ∀ w v, chain.vaults w = some v →
    v.active_positions = openCount chain w v.next_position_id
    ∧ ∀ i, v.next_position_id ≤ i → chain.positions w i = none

/-- The `i`-th of the 2^32 - 1 open positions of the C6 boundary store. -/
def posC6 (i : Nat) : Position :=
  { session_wallet := 1, pool := 21, base_mint := 22, quote_mint := 23
    position_id := i, initial_tvl := 0, current_tvl := 0, fee_paid := 0
    fees_claimed := 0, total_compounded := 0, opened_at := 0
    last_rebalance := 0, protocol := 0, strategy := 0
    status := Position.STATUS_OPEN }

/-- Vault with `active_positions = next_position_id = 2^32 - 1`. -/
def vaultC6 : VaultMetadata :=
  { session_wallet := 1, main_wallet := 5, referrer := 0
    total_value_locked := 0, total_deposits := 0, total_withdrawals := 0
    total_fees_paid := 0, next_position_id := 4294967295, created_at := 0
    last_activity := 0, active_positions := 4294967295
    status := VaultMetadata.STATUS_ACTIVE }

/-- Store with the default config, `vaultC6`, and 2^32 - 1 open
positions. -/
def chainC6 : Chain :=
  { config := some cfgDefault
    vaults := fun w => if w = 1 then some vaultC6 else none
    positions := fun w i =>
      if w = 1 ∧ i < 4294967295 then some (posC6 i) else none }

/-- OpenPosition args with `initial_tvl = 0`. -/
def openArgs0 : OpenPositionArgs :=
  { pool := 21, base_mint := 22, quote_mint := 23
    initial_tvl := 0, protocol := 0, strategy := 0 }

/-! ### Helper lemmas and the claim theorems -/

theorem U64_MOD_eq : U64_MOD = 18446744073709551616 := rfl

theorem wsub64_eq_sub {a b : Nat} (hb : b ≤ a) (ha : a < U64_MOD) :
    wsub64 a b = a - b := by
  have hM : U64_MOD = 18446744073709551616 := rfl
  unfold wsub64
  have h1 : a + U64_MOD - b = (a - b) + U64_MOD := by omega
  rw [h1, Nat.add_mod_right]
  exact Nat.mod_eq_of_lt (by omega)

theorem mul_div_le_self_of_le {a r c : Nat} (hr : r ≤ c) (hc : 0 < c) :
    a * r / c ≤ a := by
  calc a * r / c ≤ a * c / c := Nat.div_le_div_right (Nat.mul_le_mul_left a hr)
  _ = a := Nat.mul_div_cancel _ hc

theorem div_add_div_le {a b c : Nat} (hc : 0 < c) :
    a / c + b / c ≤ (a + b) / c := by
  rw [Nat.le_div_iff_mul_le hc]
  calc (a / c + b / c) * c = a / c * c + b / c * c := by ring
  _ ≤ a + b := Nat.add_le_add (Nat.div_mul_le_self a c) (Nat.div_mul_le_self b c)

theorem split_shares_le {fee r b : Nat} (hrb : r + b ≤ 100) :
    fee * r / 100 + fee * b / 100 ≤ fee := by
  calc fee * r / 100 + fee * b / 100 ≤ (fee * r + fee * b) / 100 :=
        div_add_div_le (by norm_num)
  _ = fee * (r + b) / 100 := by rw [Nat.mul_add]
  _ ≤ fee * 100 / 100 := Nat.div_le_div_right (Nat.mul_le_mul_left fee hrb)
  _ = fee := Nat.mul_div_cancel _ (by norm_num)

/-- Claim C1 (amended): for `rate_bps ≤ 10000` the fee computed by
open_position is exactly `floor(amount * rate_bps / 10000)` for the whole
u64 range of the amount (the 128-bit product never overflows and the
result fits in u64, so the final cast truncates nothing); in particular
`compute_fee 1000000 70 = 7000`.  For `rate_bps > 10000` the closing
`as u64` cast can truncate (see the counterexample theorem). -/
theorem C1_fee_exact :
    (∀ a r : Nat, a < U64_MOD → r ≤ 10000 →
      compute_fee a r = a * r / 10000)
    ∧ compute_fee 1000000 70 = 7000 := by
  constructor
  · intro a r ha hr
    unfold compute_fee
    exact Nat.mod_eq_of_lt
      (lt_of_le_of_lt (mul_div_le_self_of_le hr (by norm_num)) ha)
  · decide

/-- Witness for C1: the exactness theorem applied at a concrete input. -/
theorem C1_fee_exact_witness :
    compute_fee 1000000 70 = 1000000 * 70 / 10000 :=
  C1_fee_exact.1 1000000 70 (by decide) (by decide)

/-- Counterexample to claim C1 as stated: at `amount = u64::MAX` and
`rate_bps = 20000` the computed fee is not `floor(amount * rate_bps /
10000)` — the exact quotient `2^65 - 2` is truncated to `2^64 - 2` by the
`as u64` cast, because the code nowhere restricts `fee_bps` to 10000. -/
theorem C1_fee_truncates :
    compute_fee 18446744073709551615 20000
      ≠ 18446744073709551615 * 20000 / 10000 := by
  decide

/-- Claim C2: for `fee < 2^64` and `referral_pct + buyback_pct ≤ 100` the
three-way split is `referral = floor(fee * referral_pct / 100)` when a
referrer is present and `0` otherwise, `buyback = floor(fee * buyback_pct
/ 100)`, `treasury = fee - referral - buyback`; the three shares sum
exactly to `fee` (so the treasury share never underflows); and the two
concrete examples from the spec hold. -/
theorem C2_split_exact :
    (∀ (fee r b : Nat) (has_ref : Bool), fee < U64_MOD → r + b ≤ 100 →
      split fee r b has_ref =
        ((if has_ref then fee * r / 100 else 0), fee * b / 100,
          fee - (if has_ref then fee * r / 100 else 0) - fee * b / 100)
      ∧ (split fee r b has_ref).1 + (split fee r b has_ref).2.1
          + (split fee r b has_ref).2.2 = fee)
    ∧ split 7000 10 45 true = (700, 3150, 3150)
    ∧ split 7000 10 45 false = (0, 3150, 3850) := by
  refine ⟨?_, by decide, by decide⟩
  intro fee r b has_ref hfee hrb
  have hr : r ≤ 100 := by omega
  have hb : b ≤ 100 := by omega
  have hrf : fee * r / 100 ≤ fee := mul_div_le_self_of_le hr (by norm_num)
  have hbf : fee * b / 100 ≤ fee := mul_div_le_self_of_le hb (by norm_num)
  have hsum : fee * r / 100 + fee * b / 100 ≤ fee := split_shares_le hrb
  have hrfmod : fee * r / 100 % U64_MOD = fee * r / 100 :=
    Nat.mod_eq_of_lt (lt_of_le_of_lt hrf hfee)
  have hbfmod : fee * b / 100 % U64_MOD = fee * b / 100 :=
    Nat.mod_eq_of_lt (lt_of_le_of_lt hbf hfee)
  have hmain : split fee r b has_ref =
      ((if has_ref then fee * r / 100 else 0), fee * b / 100,
        fee - (if has_ref then fee * r / 100 else 0) - fee * b / 100) := by
    unfold split
    cases has_ref with
    | true =>
        simp only [if_true, hrfmod, hbfmod]
        rw [wsub64_eq_sub (by omega) hfee,
          wsub64_eq_sub (by omega) (by omega)]
    | false =>
        simp only [Bool.false_eq_true, if_false, hrfmod, hbfmod]
        rw [wsub64_eq_sub (Nat.zero_le fee) hfee,
          wsub64_eq_sub (by omega) (by omega)]
  refine ⟨hmain, ?_⟩
  rw [hmain]
  cases has_ref <;> simp <;> omega

/-- Witness for C2: the split theorem applied at the spec's concrete
example. -/
theorem C2_split_exact_witness :
    split 7000 10 45 true =
      ((if true then 7000 * 10 / 100 else 0), 7000 * 45 / 100,
        7000 - (if true then 7000 * 10 / 100 else 0) - 7000 * 45 / 100) :=
  (C2_split_exact.1 7000 10 45 true (by decide) (by decide)).1

/-- Claim C5: a config write (initialize or update) whose three
percentages do not sum to exactly 100 fails with `InvalidFeePercentages`
(the prior config is untouched, since an erroring instruction commits no
state); and every config write that succeeds leaves a config whose three
percentages sum to exactly 100. -/
theorem C5_config_pct_sum :
    (∀ (chain : Chain) (admin : Nat) (args : InitializeConfigArgs),
      args.referral_pct + args.buyback_pct + args.treasury_pct ≠ 100 →
        process_initialize_config chain admin args
          = .error .invalidFeePercentages)
    ∧ (∀ (chain : Chain) (caller : Nat) (args : UpdateConfigArgs),
      args.new_referral_pct + args.new_buyback_pct + args.new_treasury_pct ≠ 100 →
        process_update_config chain caller args
          = .error .invalidFeePercentages)
    ∧ (∀ (chain chain' : Chain) (admin : Nat) (args : InitializeConfigArgs),
      process_initialize_config chain admin args = .ok chain' →
        ∃ cfg, chain'.config = some cfg ∧
          cfg.referral_percentage + cfg.buyback_percentage
            + cfg.treasury_percentage = 100)
    ∧ (∀ (chain chain' : Chain) (caller : Nat) (args : UpdateConfigArgs),
      process_update_config chain caller args = .ok chain' →
        ∃ cfg, chain'.config = some cfg ∧
          cfg.referral_percentage + cfg.buyback_percentage
            + cfg.treasury_percentage = 100) := by
  refine ⟨?_, ?_, ?_, ?_⟩
  · intro chain admin args h
    unfold process_initialize_config
    simp only [if_pos h]
  · intro chain caller args h
    unfold process_update_config
    simp only [if_pos h]
  · intro chain chain' admin args h
    simp only [process_initialize_config, ne_eq] at h
    split at h
    · simp at h
    next hsum =>
      split at h
      · simp at h
      · simp only [Except.ok.injEq] at h
        subst h
        simp only [not_not] at hsum
        exact ⟨_, rfl, hsum⟩
  · intro chain chain' caller args h
    simp only [process_update_config, ne_eq] at h
    split at h
    · simp at h
    next hsum =>
      split at h
      · simp at h
      next config heq =>
        split at h
        · simp at h
        · simp only [Except.ok.injEq] at h
          subst h
          simp only [not_not] at hsum
          exact ⟨_, rfl, hsum⟩

/-- Witness for C5: a concrete rejected write, and a concrete accepted
write whose resulting percentages sum to 100. -/
theorem C5_config_pct_sum_witness :
    (process_initialize_config emptyChain 7 badPctArgs
      = .error .invalidFeePercentages)
    ∧ ∃ cfg, chainDefault.config = some cfg ∧
        cfg.referral_percentage + cfg.buyback_percentage
          + cfg.treasury_percentage = 100 :=
  ⟨C5_config_pct_sum.1 emptyChain 7 badPctArgs (by decide),
    C5_config_pct_sum.2.2.1 emptyChain chainDefault 7 goodPctArgs rfl⟩

/-- Claim C10: `initialize_config` sets `admin` to the initializing
signer, and a successful `update_config` overwrites treasury,
buyback_wallet, fee_bps, the three percentages and paused while leaving
`admin` unchanged. -/
theorem C10_admin_immutable :
    (∀ (chain chain' : Chain) (admin : Nat) (args : InitializeConfigArgs),
      process_initialize_config chain admin args = .ok chain' →
        ∃ cfg, chain'.config = some cfg ∧ cfg.admin = admin)
    ∧ (∀ (chain chain' : Chain) (caller : Nat) (args : UpdateConfigArgs)
        (cfg : GlobalConfig),
      chain.config = some cfg →
      process_update_config chain caller args = .ok chain' →
        ∃ cfg', chain'.config = some cfg'
          ∧ cfg'.admin = cfg.admin
          ∧ cfg'.treasury = args.new_treasury
          ∧ cfg'.buyback_wallet = args.new_buyback_wallet
          ∧ cfg'.fee_bps = args.new_fee_bps
          ∧ cfg'.referral_percentage = args.new_referral_pct
          ∧ cfg'.buyback_percentage = args.new_buyback_pct
          ∧ cfg'.treasury_percentage = args.new_treasury_pct
          ∧ cfg'.paused = args.paused) := by
  constructor
  · intro chain chain' admin args h
    simp only [process_initialize_config, ne_eq] at h
    split at h
    · simp at h
    · split at h
      · simp at h
      · simp only [Except.ok.injEq] at h
        subst h
        exact ⟨_, rfl, rfl⟩
  · intro chain chain' caller args cfg hcfg h
    simp only [process_update_config, ne_eq] at h
    split at h
    · simp at h
    · split at h
      · simp at h
      next config heq =>
        split at h
        · simp at h
        · simp only [Except.ok.injEq] at h
          subst h
          rw [hcfg] at heq
          injection heq with hceq
          subst hceq
          exact ⟨_, rfl, rfl, rfl, rfl, rfl, rfl, rfl, rfl, rfl⟩

/-- Witness for C10: both conjuncts applied at concrete writes. -/
theorem C10_admin_immutable_witness :
    (∃ cfg, chainDefault.config = some cfg ∧ cfg.admin = 7)
    ∧ ∃ cfg', chainUpdated.config = some cfg'
        ∧ cfg'.admin = cfgDefault.admin
        ∧ cfg'.treasury = updArgs.new_treasury
        ∧ cfg'.buyback_wallet = updArgs.new_buyback_wallet
        ∧ cfg'.fee_bps = updArgs.new_fee_bps
        ∧ cfg'.referral_percentage = updArgs.new_referral_pct
        ∧ cfg'.buyback_percentage = updArgs.new_buyback_pct
        ∧ cfg'.treasury_percentage = updArgs.new_treasury_pct
        ∧ cfg'.paused = updArgs.paused :=
  ⟨C10_admin_immutable.1 emptyChain chainDefault 7 goodPctArgs rfl,
    C10_admin_immutable.2 chainDefault chainUpdated 7 updArgs cfgDefault rfl rfl⟩

/-- Counterexample to claim C8 as stated: an `initialize_config` supplying
`fee_bps = 20000 > 10000` (with valid percentages) succeeds, and the
resulting config carries `fee_bps = 20000`; neither initialize nor update
validates `fee_bps`. -/
theorem C8_counterexample :
    process_initialize_config emptyChain 7 hugeFeeArgs = .ok chainHugeFee
    ∧ ∃ cfg, chainHugeFee.config = some cfg ∧ 10000 < cfg.fee_bps :=
  ⟨rfl, cfgHugeFee, rfl, by decide⟩

/-- Claim C8 (amended): `fee_bps` is not validated anywhere — both
initialize and update accept any u16 `fee_bps` value verbatim (the 0–10000
range in the spec is a documentation convention, not an enforced
invariant). -/
theorem C8_fee_bps_unvalidated :
    (∀ (chain : Chain) (admin : Nat) (args : InitializeConfigArgs),
      args.referral_pct + args.buyback_pct + args.treasury_pct = 100 →
      chain.config = none →
      ∃ chain' cfg, process_initialize_config chain admin args = .ok chain'
        ∧ chain'.config = some cfg ∧ cfg.fee_bps = args.fee_bps)
    ∧ (∀ (chain : Chain) (caller : Nat) (args : UpdateConfigArgs)
        (cfg : GlobalConfig),
      args.new_referral_pct + args.new_buyback_pct + args.new_treasury_pct = 100 →
      chain.config = some cfg → cfg.admin = caller →
      ∃ chain' cfg', process_update_config chain caller args = .ok chain'
        ∧ chain'.config = some cfg' ∧ cfg'.fee_bps = args.new_fee_bps) := by
  constructor
  · intro chain admin args hsum hnone
    have hstep : process_initialize_config chain admin args
        = .ok { chain with
            config := some
              { admin := admin
                treasury := args.treasury
                buyback_wallet := args.buyback_wallet
                fee_bps := args.fee_bps
                referral_percentage := args.referral_pct
                buyback_percentage := args.buyback_pct
                treasury_percentage := args.treasury_pct
                paused := 0 } } := by
      simp only [process_initialize_config, ne_eq]
      rw [if_neg (by simp [hsum]), if_neg (by simp [hnone])]
    exact ⟨_, _, hstep, rfl, rfl⟩
  · intro chain caller args cfg hsum hcfg hadmin
    have hstep : process_update_config chain caller args
        = .ok { chain with
            config := some
              { cfg with
                treasury := args.new_treasury
                buyback_wallet := args.new_buyback_wallet
                fee_bps := args.new_fee_bps
                referral_percentage := args.new_referral_pct
                buyback_percentage := args.new_buyback_pct
                treasury_percentage := args.new_treasury_pct
                paused := args.paused } } := by
      simp only [process_update_config, ne_eq, hcfg]
      rw [if_neg (by simp [hsum]), if_neg (by simp [hadmin])]
    exact ⟨_, _, hstep, rfl, rfl⟩

/-- Witness for C8 (amended): both conjuncts applied at concrete writes,
including the out-of-range `fee_bps = 20000`. -/
theorem C8_fee_bps_unvalidated_witness :
    (∃ chain' cfg, process_initialize_config emptyChain 7 hugeFeeArgs
        = .ok chain' ∧ chain'.config = some cfg ∧ cfg.fee_bps = 20000)
    ∧ ∃ chain' cfg', process_update_config chainDefault 7 updArgs
        = .ok chain' ∧ chain'.config = some cfg' ∧ cfg'.fee_bps = 80 :=
  ⟨C8_fee_bps_unvalidated.1 emptyChain 7 hugeFeeArgs (by decide) rfl,
    C8_fee_bps_unvalidated.2 chainDefault 7 updArgs cfgDefault (by decide) rfl rfl⟩

/-- When the config is present and unpaused, the caller's vault exists,
matches and is Active, and no position yet sits at `next_position_id`,
`process_open_position` succeeds and produces exactly the state update and
transfer list of open_position.rs. -/
theorem open_position_ok
    (chain : Chain) (session : Nat) (args : OpenPositionArgs)
    (t_acc b_acc r_acc : Nat) (now : Int)
    (cfg : GlobalConfig) (vault : VaultMetadata)
    (hcfg : chain.config = some cfg) (hpau : cfg.paused = 0)
    (hvault : chain.vaults session = some vault)
    (hsw : vault.session_wallet = session)
    (hstat : vault.status = VaultMetadata.STATUS_ACTIVE)
    (hpn : chain.positions session vault.next_position_id = none) :
    process_open_position chain session args t_acc b_acc r_acc now =
      .ok
        ({ chain with
            vaults := fun w =>
              if w = session then
                some { vault with
                  active_positions := wadd32 vault.active_positions 1
                  next_position_id := wadd64 vault.next_position_id 1
                  total_fees_paid := wadd64 vault.total_fees_paid
                    (compute_fee args.initial_tvl cfg.fee_bps)
                  total_value_locked := wadd64 vault.total_value_locked
                    args.initial_tvl
                  last_activity := now }
              else chain.vaults w
            positions := fun w i =>
              if w = session ∧ i = vault.next_position_id then
                some { session_wallet := session
                       position_id := vault.next_position_id
                       protocol := args.protocol
                       pool := args.pool
                       base_mint := args.base_mint
                       quote_mint := args.quote_mint
                       strategy := args.strategy
                       initial_tvl := args.initial_tvl
                       current_tvl := args.initial_tvl
                       fee_paid := compute_fee args.initial_tvl cfg.fee_bps
                       fees_claimed := 0
                       total_compounded := 0
                       opened_at := now
                       last_rebalance := now
                       status := Position.STATUS_OPEN }
              else chain.positions w i },
          (if 0 < (split (compute_fee args.initial_tvl cfg.fee_bps)
                cfg.referral_percentage cfg.buyback_percentage
                (vault.referrer ≠ 0)).1 then
              [(session, r_acc,
                (split (compute_fee args.initial_tvl cfg.fee_bps)
                  cfg.referral_percentage cfg.buyback_percentage
                  (vault.referrer ≠ 0)).1)]
            else [])
            ++ [(session, b_acc,
                  (split (compute_fee args.initial_tvl cfg.fee_bps)
                    cfg.referral_percentage cfg.buyback_percentage
                    (vault.referrer ≠ 0)).2.1),
                (session, t_acc,
                  (split (compute_fee args.initial_tvl cfg.fee_bps)
                    cfg.referral_percentage cfg.buyback_percentage
                    (vault.referrer ≠ 0)).2.2)]) := by
  simp only [process_open_position]
  rw [hcfg, hvault]
  simp only [hpau, hsw, hstat, hpn, ne_eq, not_true_eq_false, if_false,
    Option.isSome_none, Bool.false_eq_true, gt_iff_lt]

/-- Claim C3: opening a position with `initial_tvl = 1000000` under the
default config (fee_bps 70, split 10/45/45, unpaused) on an Active vault
with a non-empty referrer succeeds, requests exactly the three transfers
700/3150/3150 from the opener, records `fee_paid = 7000` on the new
position, and bumps the vault's `active_position_count`,
`next_position_id`, `total_fees_paid` (+7000) and `total_value_locked`
(+1000000) — provided none of those counters is at its wrap-around
boundary (the code adds with plain `+=`). -/
theorem C3_open_default_scenario
    (chain : Chain) (session : Nat) (args : OpenPositionArgs)
    (t_acc b_acc r_acc : Nat) (now : Int)
    (cfg : GlobalConfig) (vault : VaultMetadata)
    (hcfg : chain.config = some cfg) (hpau : cfg.paused = 0)
    (hfeebps : cfg.fee_bps = 70) (hrp : cfg.referral_percentage = 10)
    (hbp : cfg.buyback_percentage = 45)
    (hvault : chain.vaults session = some vault)
    (hsw : vault.session_wallet = session)
    (hstat : vault.status = VaultMetadata.STATUS_ACTIVE)
    (href : vault.referrer ≠ 0)
    (htvl : args.initial_tvl = 1000000)
    (hpn : chain.positions session vault.next_position_id = none)
    (hov1 : vault.active_positions + 1 < U32_MOD)
    (hov2 : vault.next_position_id + 1 < U64_MOD)
    (hov3 : vault.total_fees_paid + 7000 < U64_MOD)
    (hov4 : vault.total_value_locked + 1000000 < U64_MOD) :
    ∃ chain' pos,
      process_open_position chain session args t_acc b_acc r_acc now =
        .ok (chain', [(session, r_acc, 700), (session, b_acc, 3150),
                      (session, t_acc, 3150)])
      ∧ chain'.positions session vault.next_position_id = some pos
      ∧ pos.fee_paid = 7000
      ∧ chain'.vaults session = some
          { vault with
            active_positions := vault.active_positions + 1
            next_position_id := vault.next_position_id + 1
            total_fees_paid := vault.total_fees_paid + 7000
            total_value_locked := vault.total_value_locked + 1000000
            last_activity := now } := by
  have hfee : compute_fee args.initial_tvl cfg.fee_bps = 7000 := by
    rw [htvl, hfeebps]; decide
  have hrefb : (decide (vault.referrer ≠ 0)) = true := by simp [href]
  have hsplit : split (compute_fee args.initial_tvl cfg.fee_bps)
      cfg.referral_percentage cfg.buyback_percentage
      (vault.referrer ≠ 0) = (700, 3150, 3150) := by
    rw [hfee, hrp, hbp, hrefb]; decide
  refine
    ⟨{ chain with
        vaults := fun w =>
          if w = session then
            some { vault with
              active_positions := wadd32 vault.active_positions 1
              next_position_id := wadd64 vault.next_position_id 1
              total_fees_paid := wadd64 vault.total_fees_paid
                (compute_fee args.initial_tvl cfg.fee_bps)
              total_value_locked := wadd64 vault.total_value_locked
                args.initial_tvl
              last_activity := now }
          else chain.vaults w
        positions := fun w i =>
          if w = session ∧ i = vault.next_position_id then
            some { session_wallet := session
                   position_id := vault.next_position_id
                   protocol := args.protocol
                   pool := args.pool
                   base_mint := args.base_mint
                   quote_mint := args.quote_mint
                   strategy := args.strategy
                   initial_tvl := args.initial_tvl
                   current_tvl := args.initial_tvl
                   fee_paid := compute_fee args.initial_tvl cfg.fee_bps
                   fees_claimed := 0
                   total_compounded := 0
                   opened_at := now
                   last_rebalance := now
                   status := Position.STATUS_OPEN }
          else chain.positions w i },
      { session_wallet := session
        position_id := vault.next_position_id
        protocol := args.protocol
        pool := args.pool
        base_mint := args.base_mint
        quote_mint := args.quote_mint
        strategy := args.strategy
        initial_tvl := args.initial_tvl
        current_tvl := args.initial_tvl
        fee_paid := compute_fee args.initial_tvl cfg.fee_bps
        fees_claimed := 0
        total_compounded := 0
        opened_at := now
        last_rebalance := now
        status := Position.STATUS_OPEN }, ?_, ?_, ?_, ?_⟩
  · rw [open_position_ok chain session args t_acc b_acc r_acc now cfg vault
      hcfg hpau hvault hsw hstat hpn]
    rw [hsplit]
    norm_num
  · show (if session = session ∧ vault.next_position_id = vault.next_position_id
        then _ else _) = _
    rw [if_pos ⟨rfl, rfl⟩]
  · exact hfee
  · show (if session = session then _ else _) = _
    rw [if_pos rfl]
    simp only [wadd32, wadd64, Option.some.injEq]
    rw [hfee, htvl, Nat.mod_eq_of_lt hov1, Nat.mod_eq_of_lt hov2,
      Nat.mod_eq_of_lt hov3, Nat.mod_eq_of_lt hov4]

/-- Witness for C3: the scenario theorem applied to the fresh vault. -/
theorem C3_open_default_scenario_witness :
    ∃ chain' pos,
      process_open_position chainReady 1 openArgs 2 3 9 99 =
        .ok (chain', [(1, 9, 700), (1, 3, 3150), (1, 2, 3150)])
      ∧ chain'.positions 1 vaultFresh.next_position_id = some pos
      ∧ pos.fee_paid = 7000
      ∧ chain'.vaults 1 = some
          { vaultFresh with
            active_positions := vaultFresh.active_positions + 1
            next_position_id := vaultFresh.next_position_id + 1
            total_fees_paid := vaultFresh.total_fees_paid + 7000
            total_value_locked := vaultFresh.total_value_locked + 1000000
            last_activity := 99 } :=
  C3_open_default_scenario chainReady 1 openArgs 2 3 9 99 cfgDefault vaultFresh
    rfl rfl rfl rfl rfl rfl rfl rfl (by decide) rfl rfl
    (by decide) (by decide) (by decide) (by decide)

/-- Closing a non-Open position fails with `InvalidPositionStatus`. -/
theorem close_position_closed_err
    (chain : Chain) (session pid : Nat) (now : Int) (pos : Position)
    (hpos : chain.positions session pid = some pos)
    (hsw : pos.session_wallet = session)
    (hst : pos.status ≠ Position.STATUS_OPEN) :
    process_close_position chain session pid now
      = .error .invalidPositionStatus := by
  simp only [process_close_position]
  rw [hpos]
  simp [hsw, hst]

/-- Updating a non-Open position fails with `InvalidPositionStatus`. -/
theorem update_position_closed_err
    (chain : Chain) (session : Nat) (args : UpdatePositionTVLArgs)
    (now : Int) (pos : Position)
    (hpos : chain.positions session args.position_id = some pos)
    (hsw : pos.session_wallet = session)
    (hst : pos.status ≠ Position.STATUS_OPEN) :
    process_update_position_tvl chain session args now
      = .error .invalidPositionStatus := by
  simp only [process_update_position_tvl]
  rw [hpos]
  simp [hsw, hst]

/-- Successful close_position, characterized once. -/
theorem close_position_ok
    (chain : Chain) (session pid : Nat) (now : Int)
    (pos : Position) (vault : VaultMetadata)
    (hpos : chain.positions session pid = some pos)
    (hpsw : pos.session_wallet = session)
    (hst : pos.status = Position.STATUS_OPEN)
    (hvault : chain.vaults session = some vault)
    (hvsw : vault.session_wallet = session) :
    process_close_position chain session pid now =
      .ok { chain with
        vaults := fun w =>
          if w = session then
            some { vault with
              active_positions := satSub vault.active_positions 1
              total_value_locked := satSub vault.total_value_locked
                pos.current_tvl
              total_withdrawals := satAdd64 vault.total_withdrawals
                pos.current_tvl
              last_activity := now }
          else chain.vaults w
        positions := fun w i =>
          if w = session ∧ i = pid then
            some { pos with status := Position.STATUS_CLOSED }
          else chain.positions w i } := by
  simp only [process_close_position]
  rw [hpos, hvault]
  simp [hpsw, hst, hvsw]

/-- Claim C4: closing an Open position (owned by the signer, in a matching
vault whose aggregates are not at saturation boundaries) decrements
`active_positions` by one, moves the position's `current_tvl` from
`total_value_locked` to `total_withdrawals`, and marks the position
Closed; afterwards a second close and any TVL update on that position
fail with `InvalidPositionStatus` (an erroring instruction commits no
state, so both records are left unchanged). -/
theorem C4_close_then_reject
    (chain : Chain) (session pid : Nat) (now now2 now3 : Int)
    (uargs : UpdatePositionTVLArgs)
    (pos : Position) (vault : VaultMetadata)
    (hpos : chain.positions session pid = some pos)
    (hpsw : pos.session_wallet = session)
    (hst : pos.status = Position.STATUS_OPEN)
    (hvault : chain.vaults session = some vault)
    (hvsw : vault.session_wallet = session)
    (hact : 1 ≤ vault.active_positions)
    (htvl : pos.current_tvl ≤ vault.total_value_locked)
    (hwd : vault.total_withdrawals + pos.current_tvl < U64_MOD)
    (hargs : uargs.position_id = pid) :
    ∃ chain',
      process_close_position chain session pid now = .ok chain'
      ∧ chain'.vaults session = some
          { vault with
            active_positions := vault.active_positions - 1
            total_value_locked := vault.total_value_locked - pos.current_tvl
            total_withdrawals := vault.total_withdrawals + pos.current_tvl
            last_activity := now }
      ∧ chain'.positions session pid
          = some { pos with status := Position.STATUS_CLOSED }
      ∧ process_close_position chain' session pid now2
          = .error .invalidPositionStatus
      ∧ process_update_position_tvl chain' session uargs now3
          = .error .invalidPositionStatus := by
  refine ⟨_,
    close_position_ok chain session pid now pos vault hpos hpsw hst hvault hvsw,
    ?_, ?_, ?_, ?_⟩
  · show (if session = session then _ else _) = _
    rw [if_pos rfl]
    simp only [satSub, satAdd64, Option.some.injEq]
    rw [min_eq_left (by omega)]
  · show (if session = session ∧ pid = pid then _ else _) = _
    rw [if_pos ⟨rfl, rfl⟩]
  · exact close_position_closed_err _ session pid now2
      { pos with status := Position.STATUS_CLOSED }
      (by show (if session = session ∧ pid = pid then _ else _) = _
          rw [if_pos ⟨rfl, rfl⟩])
      hpsw (by show Position.STATUS_CLOSED ≠ Position.STATUS_OPEN; decide)
  · refine update_position_closed_err _ session uargs now3
      { pos with status := Position.STATUS_CLOSED } ?_ hpsw
      (by show Position.STATUS_CLOSED ≠ Position.STATUS_OPEN; decide)
    rw [hargs]
    show (if session = session ∧ pid = pid then _ else _) = _
    rw [if_pos ⟨rfl, rfl⟩]

/-- Witness for C4: the close-then-reject theorem at the concrete store. -/
theorem C4_close_then_reject_witness :
    ∃ chain',
      process_close_position chainWithPos 1 0 10 = .ok chain'
      ∧ chain'.vaults 1 = some
          { vaultWithPos with
            active_positions := vaultWithPos.active_positions - 1
            total_value_locked :=
              vaultWithPos.total_value_locked - posOpen.current_tvl
            total_withdrawals :=
              vaultWithPos.total_withdrawals + posOpen.current_tvl
            last_activity := 10 }
      ∧ chain'.positions 1 0
          = some { posOpen with status := Position.STATUS_CLOSED }
      ∧ process_close_position chain' 1 0 11
          = .error .invalidPositionStatus
      ∧ process_update_position_tvl chain' 1 updTvlArgs 12
          = .error .invalidPositionStatus :=
  C4_close_then_reject chainWithPos 1 0 10 11 12 updTvlArgs posOpen
    vaultWithPos rfl rfl rfl rfl rfl (by decide) (by decide) (by decide) rfl

/-- Counterexample to claim C9 as stated: a successful
`update_position_tvl` leaves the vault map — in particular the owner's
vault record — completely unchanged (the instruction does not even take
the vault account). -/
theorem C9_counterexample :
    ∃ chain', process_update_position_tvl chainWithPos 1 updTvlArgs 55
        = .ok chain'
      ∧ chain'.vaults = chainWithPos.vaults
      ∧ chain'.vaults 1 = chainWithPos.vaults 1
      ∧ chain'.config = chainWithPos.config :=
  ⟨_, rfl, rfl, rfl, rfl⟩

/-- Claim C9 (amended): open_position and close_position mutate the
owner's vault record (both refresh its `last_activity`), but a successful
`update_position_tvl` leaves every vault record untouched and instead
refreshes the `last_rebalance` field of the position record itself. -/
theorem C9_update_touches_only_position :
    (∀ (chain chain' : Chain) (session : Nat) (args : UpdatePositionTVLArgs)
      (now : Int),
      process_update_position_tvl chain session args now = .ok chain' →
        chain'.vaults = chain.vaults
        ∧ chain'.config = chain.config
        ∧ ∃ pos', chain'.positions session args.position_id = some pos'
            ∧ pos'.last_rebalance = now)
    ∧ (∀ (chain chain' : Chain) (session : Nat) (args : OpenPositionArgs)
        (t_acc b_acc r_acc : Nat) (now : Int)
        (ts : List (Nat × Nat × Nat)),
      process_open_position chain session args t_acc b_acc r_acc now
          = .ok (chain', ts) →
        ∃ v', chain'.vaults session = some v' ∧ v'.last_activity = now)
    ∧ (∀ (chain chain' : Chain) (session pid : Nat) (now : Int),
      process_close_position chain session pid now = .ok chain' →
        ∃ v', chain'.vaults session = some v' ∧ v'.last_activity = now) := by
  refine ⟨?_, ?_, ?_⟩
  · intro chain chain' session args now h
    simp only [process_update_position_tvl] at h
    split at h
    · simp at h
    next pos heq =>
      split at h
      · simp at h
      · split at h
        · simp at h
        · simp only [Except.ok.injEq] at h
          subst h
          refine ⟨rfl, rfl,
            { pos with
              current_tvl := args.new_tvl
              fees_claimed := args.fees_claimed
              total_compounded := args.total_compounded
              last_rebalance := now }, ?_, rfl⟩
          show (if session = session ∧ args.position_id = args.position_id
              then _ else _) = _
          rw [if_pos ⟨rfl, rfl⟩]
  · intro chain chain' session args t_acc b_acc r_acc now ts h
    simp only [process_open_position] at h
    split at h
    · simp at h
    next cfg hcq =>
      split at h
      · simp at h
      · split at h
        · simp at h
        next vault hvq =>
          split at h
          · simp at h
          · split at h
            · simp at h
            · split at h
              · simp at h
              · simp only [Except.ok.injEq, Prod.mk.injEq] at h
                obtain ⟨h1, -⟩ := h
                subst h1
                refine ⟨{ vault with
                    active_positions := wadd32 vault.active_positions 1
                    next_position_id := wadd64 vault.next_position_id 1
                    total_fees_paid := wadd64 vault.total_fees_paid
                      (compute_fee args.initial_tvl cfg.fee_bps)
                    total_value_locked := wadd64 vault.total_value_locked
                      args.initial_tvl
                    last_activity := now }, ?_, rfl⟩
                show (if session = session then _ else _) = _
                rw [if_pos rfl]
  · intro chain chain' session pid now h
    simp only [process_close_position] at h
    split at h
    · simp at h
    next pos hpq =>
      split at h
      · simp at h
      · split at h
        · simp at h
        · split at h
          · simp at h
          next vault hvq =>
            split at h
            · simp at h
            · simp only [Except.ok.injEq] at h
              subst h
              refine ⟨{ vault with
                  active_positions := satSub vault.active_positions 1
                  total_value_locked := satSub vault.total_value_locked
                    pos.current_tvl
                  total_withdrawals := satAdd64 vault.total_withdrawals
                    pos.current_tvl
                  last_activity := now }, ?_, rfl⟩
              show (if session = session then _ else _) = _
              rw [if_pos rfl]

/-- Witness for C9 (amended): the three conjuncts applied at concrete
instructions. -/
theorem C9_update_touches_only_position_witness :
    (∃ chain' : Chain, chain'.vaults = chainWithPos.vaults
      ∧ chain'.config = chainWithPos.config
      ∧ ∃ pos' : Position,
          chain'.positions 1 updTvlArgs.position_id = some pos'
          ∧ pos'.last_rebalance = (55 : Int))
    ∧ (∃ (chain' : Chain) (v' : VaultMetadata), chain'.vaults 1 = some v'
        ∧ v'.last_activity = (99 : Int))
    ∧ (∃ (chain' : Chain) (v' : VaultMetadata), chain'.vaults 1 = some v'
        ∧ v'.last_activity = (10 : Int)) :=
  ⟨⟨_, C9_update_touches_only_position.1 chainWithPos _ 1 updTvlArgs 55 rfl⟩,
    ⟨_, C9_update_touches_only_position.2.1 chainReady _ 1 openArgs 2 3 9 99
      _ rfl⟩,
    ⟨_, C9_update_touches_only_position.2.2 chainWithPos _ 1 0 10 rfl⟩⟩

/-- Claim C7 is violated by the code (code bug): overflow is never
detected.  The fee computation silently truncates its `as u64` cast (at
`amount = u64::MAX`, `rate_bps = 20000` the exact quotient `2^65 - 2`
becomes `2^64 - 2`), and the vault aggregate updates use plain wrapping
`+=`: opening a 1000000-lamport position on a vault whose
`total_value_locked` is `u64::MAX` succeeds — instead of failing with
`ArithmeticOverflow` — and wraps the aggregate around to 999999.  The
`ArithmeticOverflow` error is declared in api/src/error.rs but never
produced by any processor. -/
theorem C7_overflow_not_detected :
    compute_fee 18446744073709551615 20000 = 18446744073709551614
    ∧ 18446744073709551615 * 20000 / 10000 = 36893488147419103230
    ∧ ∃ (chain' : Chain) (ts : List (Nat × Nat × Nat))
        (v' : VaultMetadata),
        process_open_position chainMaxTvl 1 openArgs 2 3 4 0 = .ok (chain', ts)
        ∧ chain'.vaults 1 = some v'
        ∧ v'.total_value_locked = 999999
        ∧ v'.total_fees_paid = 7000 :=
  ⟨by decide, by decide, _, _, _, rfl, rfl, by decide, by decide⟩

/-- If every id below `n` holds an Open position, the count is `n`. -/
theorem openCount_all_open (chain : Chain) (w n : Nat)
    (h : ∀ i, i < n → isOpenOpt (chain.positions w i) = true) :
    openCount chain w n = n := by
  unfold openCount
  rw [Finset.filter_true_of_mem]
  · exact Finset.card_range n
  · intro i hi
    exact h i (Finset.mem_range.mp hi)

/-- Claim C6 is violated by the code (code bug, reachable only after
2^32 position opens): in the store where a vault holds `2^32 - 1` open
positions and `active_positions = 2^32 - 1` the invariant holds, yet one
more successful open_position wraps the u32 counter `active_positions += 1`
to 0 while a 2^32-nd Open position record now exists, breaking the
invariant.  With the checked arithmetic the spec demands, the open would
instead fail and the invariant would be preserved. -/
theorem C6_count_wraps_at_u32_boundary :
    vaultInvariant chainC6
    ∧ ∃ (chain' : Chain) (ts : List (Nat × Nat × Nat)),
        process_open_position chainC6 1 openArgs0 2 3 4 0 = .ok (chain', ts)
        ∧ ¬ vaultInvariant chain' := by
  constructor
  · intro w v hv
    by_cases hw : w = 1
    · subst hw
      have hv2 : some vaultC6 = some v := hv
      injection hv2 with hvv
      subst hvv
      constructor
      · rw [openCount_all_open]
        · rfl
        · intro i hi
          have hi' : i < 4294967295 := hi
          simp [chainC6, posC6, isOpenOpt, hi', Position.STATUS_OPEN]
      · intro i hi
        have hi' : 4294967295 ≤ i := hi
        have hlt : ¬ (i < 4294967295) := by omega
        simp [chainC6, hlt]
    · simp [chainC6, hw] at hv
  · refine ⟨_, _, rfl, ?_⟩
    intro hinv
    have h := (hinv 1 _ rfl).1
    rw [openCount_all_open] at h
    · exact absurd h (by decide)
    · intro i hi
      have hi' : i < 4294967296 := hi
      by_cases he : i = 4294967295
      · subst he
        simp [isOpenOpt, vaultC6, Position.STATUS_OPEN]
      · have hlt : i < 4294967295 := by omega
        simp [isOpenOpt, chainC6, posC6, vaultC6, he, hlt,
          Position.STATUS_OPEN]

end MetatoolsVault
